import Mathlib

/-
Verification of the libtock-rs streaming-receive core:
the IEEE 802.15.4 receive ring buffer (`src/apis/net/ieee802154/src/rx.rs`),
the dual-buffer exchange operator, the console lent-buffer handle
(`src/apis/interface/console/src/lib.rs`) and the composable-wait framework
(`src/future/src/lib.rs`).

The Rust code is shallowly embedded: machine bytes (`u8`) become `Nat` with
explicit `% 256` where the source truncates, fallible operations (panics,
`unwrap`, `todo!`) become `Option` / distinguished outcome constructors, and
the kernel side of the protocol is an explicit environment value.
-/

namespace LibtockRx

/-- Mirror of `Frame` (rx.rs): `{header_len, payload_len, mic_len, body}`.
Byte fields become `Nat`; the 127-byte body becomes a list of bytes. -/
structure Frame where
  header_len : Nat
  payload_len : Nat
  mic_len : Nat
  body : List Nat
deriving DecidableEq

/-- Mirror of `EMPTY_FRAME` (rx.rs): the all-zero construction sentinel. -/
def EMPTY_FRAME : Frame :=
  { header_len := 0, payload_len := 0, mic_len := 0, body := List.replicate 127 0 }

/-- Mirror of `RxRingBuffer<N>` (rx.rs): `read_index` and `write_index` are
single bytes in the source (`u8`); the slot array of capacity `N` becomes a
list whose length is the capacity. -/
structure RxRingBuffer where
  read_index : Nat
  write_index : Nat
  frames : List Frame
deriving DecidableEq

/-- Mirror of `RxRingBuffer::<N>::new()`: both indices zero, all slots filled
with the empty sentinel. -/
def RxRingBuffer.new (N : Nat) : RxRingBuffer :=
  { read_index := 0, write_index := 0, frames := List.replicate N EMPTY_FRAME }

/-- Mirror of `RxRingBuffer::has_frame`: `self.read_index != self.write_index`. -/
def RxRingBuffer.has_frame (b : RxRingBuffer) : Bool :=
  b.read_index != b.write_index

/-- Mirror of `RxRingBuffer::next_frame`:
`let frame = self.frames.get_mut(self.read_index as usize).unwrap();`
`self.read_index = (self.read_index + 1) % N as u8;`.
The `unwrap` of an out-of-range slot lookup and the `% 0` of `N as u8 == 0`
are panics, embedded as `none`.  The `u8` addition wraps at 256 and the
modulus is the capacity truncated to a byte, exactly as `N as u8` does. -/
def RxRingBuffer.next_frame (b : RxRingBuffer) : Option (Frame × RxRingBuffer) :=
  match b.frames.get? b.read_index with
  | none => none
  | some f =>
    if b.frames.length % 256 = 0 then none
    else some (f, { b with read_index := (b.read_index + 1) % 256 % (b.frames.length % 256) })

/-- Number of frames currently readable: `(write_index + N - read_index) % N`. -/
def RxRingBuffer.available (b : RxRingBuffer) : Nat :=
  (b.write_index + b.frames.length - b.read_index) % b.frames.length

/-- Modelled from the spec: the kernel producer side of the ring buffer is not
part of this repository (only its userspace consumer is).  Per the spec, the
kernel "independently advances `write_index` modulo `N` as it writes": a write
stores the frame at `write_index` and advances `write_index` modulo the
capacity, overwriting silently on overflow. -/
def kernelWrite (b : RxRingBuffer) (f : Frame) : RxRingBuffer :=
  { b with
    frames := b.frames.set b.write_index f,
    write_index := (b.write_index + 1) % b.frames.length }

/-- A burst of kernel writes, oldest first. -/
def writeAll : RxRingBuffer → List Frame → RxRingBuffer
  | b, [] => b
  | b, f :: rest => writeAll (kernelWrite b f) rest

/-- `n` successive application pops through `next_frame`; `none` if any pop
panics. -/
def popAll : RxRingBuffer → Nat → Option (List Frame × RxRingBuffer)
  | b, 0 => some ([], b)
  | b, n + 1 =>
    match b.next_frame with
    | none => none
    | some (f, b') =>
      match popAll b' n with
      | none => none
      | some (fs, b'') => some (f :: fs, b'')

/-- Mirror of `libtock_platform::ErrorCode`, restricted to the closed error
set the spec names (driver absent, busy, invalid length/argument, generic
failure). -/
inductive ErrorCode where
  | fail
  | busy
  | invalid
  | size
  | nodevice
deriving DecidableEq

/-- The two ring buffers of `RxBufferAlternatingOperator` together with which
one is currently owned by the application (`buf_ours`); the other is lent to
the kernel (`buf_kernels.lent_buf`).  The Boolean plays the role of the
owned-buffer pointer: flipping it is exactly the pointer exchange `swap`
performs. -/
structure ExchangeState where
  owned_is_first : Bool
  buf1 : RxRingBuffer
  buf2 : RxRingBuffer
deriving DecidableEq

/-- The application-owned buffer (`buf_ours`). -/
def ExchangeState.owned (st : ExchangeState) : RxRingBuffer :=
  if st.owned_is_first then st.buf1 else st.buf2

/-- The kernel-lent buffer (`buf_kernels`). -/
def ExchangeState.lent (st : ExchangeState) : RxRingBuffer :=
  if st.owned_is_first then st.buf2 else st.buf1

/-- Replace the contents of the application-owned buffer. -/
def ExchangeState.setOwned (st : ExchangeState) (b : RxRingBuffer) : ExchangeState :=
  if st.owned_is_first then { st with buf1 := b } else { st with buf2 := b }

/-- Replace the contents of the kernel-lent buffer. -/
def ExchangeState.setLent (st : ExchangeState) (b : RxRingBuffer) : ExchangeState :=
  if st.owned_is_first then { st with buf2 := b } else { st with buf1 := b }

/-- The call-interface interactions `receive_frame` can perform, recorded in
order.  `allowCall` covers a buffer swap's `allow_rw`. -/
inductive KInteraction where
  | subscribeCall
  | allowCall
  | yieldCall
  | commandCall
deriving DecidableEq

/-- The kernel side of one `receive_frame` round, fixed up front: results of
the `subscribe` call and of the `allow_rw` inside each of the two possible
swaps, the frames the kernel deposited in the lent buffer before each swap
reclaims it (as a mutation function), and whether the frame-received upcall
ever fires during the yield-wait loop. -/
structure KernelEnv where
  subscribe_res : Except ErrorCode Unit
  allow1_res : Except ErrorCode Unit
  kmut1 : RxRingBuffer → RxRingBuffer
  upcall_arrives : Bool
  allow2_res : Except ErrorCode Unit
  kmut2 : RxRingBuffer → RxRingBuffer

/-- Outcome of one blocking `receive_frame` call: a frame, a propagated
`ErrorCode`, a panic (failed `assert!` / `unwrap`), or an endless yield-wait
loop (upcall never fires). -/
inductive RxOutcome where
  | ok : Frame → RxOutcome
  | err : ErrorCode → RxOutcome
  | panicked
  | diverged
deriving DecidableEq

/-- Mirror of `RxRingBufferInKernel::swap` at the exchange level: first
`share_unscoped` allows the drained owned buffer (result `allow_res`); on
failure the `?` operator aborts the swap with nothing exchanged.  On success
the pointer swap runs unconditionally: the reclaimed buffer (with whatever
the kernel wrote into it, `kmut`) becomes owned and the other becomes lent. -/
def swapStep (st : ExchangeState) (allow_res : Except ErrorCode Unit)
    (kmut : RxRingBuffer → RxRingBuffer) : Except ErrorCode ExchangeState :=
  match allow_res with
  | .error e => .error e
  | .ok _ => .ok { st.setLent (kmut st.lent) with owned_is_first := !st.owned_is_first }

/-- The exchange state after a successful first swap in `receive_frame`:
the previously lent buffer (mutated by the kernel) is now owned, the drained
owned buffer now lent. -/
def afterFirstSwap (st : ExchangeState) (env : KernelEnv) : ExchangeState :=
  { st.setLent (env.kmut1 st.lent) with owned_is_first := !st.owned_is_first }

/-- Mirror of `RxBufferAlternatingOperator::receive_frame` (rx.rs): pop from
the owned buffer if nonempty with no call-interface interaction; otherwise
subscribe, swap, re-check, yield-wait for the upcall, swap again and pop, with
`assert!(self.buf_ours.has_frame())` embedded as the `panicked` outcome. -/
def receive_frame (st : ExchangeState) (env : KernelEnv) :
    RxOutcome × ExchangeState × List KInteraction :=
  if st.owned.has_frame then
    match st.owned.next_frame with
    | some fb => (RxOutcome.ok fb.1, st.setOwned fb.2, [])
    | none => (RxOutcome.panicked, st, [])
  else
    match env.subscribe_res with
    | .error e => (RxOutcome.err e, st, [KInteraction.subscribeCall])
    | .ok _ =>
      match swapStep st env.allow1_res env.kmut1 with
      | .error e => (RxOutcome.err e, st, [KInteraction.subscribeCall, KInteraction.allowCall])
      | .ok st1 =>
        if st1.owned.has_frame then
          match st1.owned.next_frame with
          | some fb => (RxOutcome.ok fb.1, st1.setOwned fb.2,
              [KInteraction.subscribeCall, KInteraction.allowCall])
          | none => (RxOutcome.panicked, st1,
              [KInteraction.subscribeCall, KInteraction.allowCall])
        else if env.upcall_arrives then
          match swapStep st1 env.allow2_res env.kmut2 with
          | .error e => (RxOutcome.err e, st1,
              [KInteraction.subscribeCall, KInteraction.allowCall,
               KInteraction.yieldCall, KInteraction.allowCall])
          | .ok st2 =>
            if st2.owned.has_frame then
              match st2.owned.next_frame with
              | some fb => (RxOutcome.ok fb.1, st2.setOwned fb.2,
                  [KInteraction.subscribeCall, KInteraction.allowCall,
                   KInteraction.yieldCall, KInteraction.allowCall])
              | none => (RxOutcome.panicked, st2,
                  [KInteraction.subscribeCall, KInteraction.allowCall,
                   KInteraction.yieldCall, KInteraction.allowCall])
            else (RxOutcome.panicked, st2,
                [KInteraction.subscribeCall, KInteraction.allowCall,
                 KInteraction.yieldCall, KInteraction.allowCall])
        else (RxOutcome.diverged, st1,
            [KInteraction.subscribeCall, KInteraction.allowCall, KInteraction.yieldCall])

/-- Result of `RxBufferAlternatingOperator::receive_frame_fut`: a frame right
away (`ReceivedFrameOrFut::Frame`), a still-pending future carrying the
post-first-swap state (`ReceivedFrameOrFut::Fut`), a propagated error, or a
panic. -/
inductive FutStep where
  | frameNow : Frame → ExchangeState → FutStep
  | futPending : ExchangeState → FutStep
  | errored : ErrorCode → FutStep
  | panicked
deriving DecidableEq

/-- Mirror of `RxBufferAlternatingOperator::receive_frame_fut` (rx.rs): the
same owned-buffer check / subscribe / first swap / re-check prefix as
`receive_frame`, but instead of entering the yield-wait loop it returns the
future. -/
def receive_frame_fut (st : ExchangeState) (env : KernelEnv) :
    FutStep × List KInteraction :=
  if st.owned.has_frame then
    match st.owned.next_frame with
    | some fb => (FutStep.frameNow fb.1 (st.setOwned fb.2), [])
    | none => (FutStep.panicked, [])
  else
    match env.subscribe_res with
    | .error e => (FutStep.errored e, [KInteraction.subscribeCall])
    | .ok _ =>
      match swapStep st env.allow1_res env.kmut1 with
      | .error e => (FutStep.errored e, [KInteraction.subscribeCall, KInteraction.allowCall])
      | .ok st1 =>
        if st1.owned.has_frame then
          match st1.owned.next_frame with
          | some fb => (FutStep.frameNow fb.1 (st1.setOwned fb.2),
              [KInteraction.subscribeCall, KInteraction.allowCall])
          | none => (FutStep.panicked, [KInteraction.subscribeCall, KInteraction.allowCall])
        else (FutStep.futPending st1, [KInteraction.subscribeCall, KInteraction.allowCall])

/-- Mirror of `AlternatingOperatorFrameFut::await_completion` (rx.rs):
yield-wait until the upcall fires, then swap again and pop, with
`assert!(self.buf_ours.has_frame())` embedded as the `panicked` outcome. -/
def alternating_await_completion (st1 : ExchangeState) (env : KernelEnv) :
    RxOutcome × ExchangeState :=
  if env.upcall_arrives then
    match swapStep st1 env.allow2_res env.kmut2 with
    | .error e => (RxOutcome.err e, st1)
    | .ok st2 =>
      if st2.owned.has_frame then
        match st2.owned.next_frame with
        | some fb => (RxOutcome.ok fb.1, st2.setOwned fb.2)
        | none => (RxOutcome.panicked, st2)
      else (RxOutcome.panicked, st2)
  else (RxOutcome.diverged, st1)

/-- Outcome of `receive_frame_timed` on the single-buffer operator. -/
inductive TimedOutcome where
  | ok : Option Frame → TimedOutcome
  | err : ErrorCode → TimedOutcome
  | panicked
deriving DecidableEq

/-- Mirror of `RxSingleBufferOperator` (rx.rs): a single ring buffer. -/
structure RxSingleBufferOperator where
  buf : RxRingBuffer
deriving DecidableEq

/-- Mirror of `RxSingleBufferOperator::receive_frame_timed` (rx.rs): the body
is literally `todo!()`, which panics unconditionally before looking at any
argument, so no input ever produces `Ok` or an `ErrorCode`. -/
def RxSingleBufferOperator.receive_frame_timed (_op : RxSingleBufferOperator)
    (_alarmTicks : Nat) : TimedOutcome :=
  TimedOutcome.panicked

/-- Mirror of `AllowedBuf` (console/src/lib.rs): the lent region's contents
plus whether it is currently shared (allowed) with the kernel.  The source
has no further state: in particular it has no closed/poisoned flag. -/
structure AllowedBuf where
  contents : List Nat
  shared : Bool
deriving DecidableEq

/-- Mirror of `AllowedBuf::inspect` (console/src/lib.rs): unconditionally
revoke sharing (`S::unallow_rw`), run `f` with exclusive access to the
region, then reshare it (`share_unscoped`), whose result is `reshare_res`.
On reshare failure the error is returned and the region is left unshared;
the handle itself is not invalidated in any way. -/
def AllowedBuf.inspect (b : AllowedBuf) (f : List Nat → List Nat)
    (reshare_res : Except ErrorCode Unit) : Except ErrorCode Unit × AllowedBuf :=
  let inspected := f b.contents
  match reshare_res with
  | .ok _ => (.ok (), { contents := inspected, shared := true })
  | .error e => (.error e, { contents := inspected, shared := false })

/-- Deep embedding of the `TockFuture` values built from the combinators of
`src/future/src/lib.rs`: `ReadyFuture`, `PendingFuture`, `Select`, `Join`. -/
inductive Fut : Type → Type 1 where
  | ready {α : Type} : α → Fut α
  | pending {α : Type} : Fut α
  | select {α β : Type} : Fut α → Fut β → Fut (α ⊕ β)
  | join {α β : Type} : Fut α → Fut β → Fut (α × β)

/-- Mirror of the `check_resolved` implementations: `ReadyFuture` is always
resolved, `PendingFuture` never, `Select` when either side is
(`fut1.check_resolved() || fut2.check_resolved()`), `Join` when both are. -/
def Fut.check_resolved : {α : Type} → Fut α → Bool
  | _, .ready _ => true
  | _, .pending => false
  | _, .select a b => a.check_resolved || b.check_resolved
  | _, .join a b => a.check_resolved && b.check_resolved

/-- Mirror of the `await_completion` implementations, fuelled by the number of
cooperative yield cycles allowed.  `ReadyFuture` returns its value with zero
yields; `PendingFuture` panics (`none`); `Select` polls `fut1` then `fut2`
each cycle, yielding between cycles, so `Sum.inl` wins any tie; `Join` awaits
`fut1` then `fut2` and pairs the results.  The returned `Nat` counts the
yield cycles consumed; `none` is a panic or fuel exhaustion of the
yield-wait loop. -/
def Fut.await_completion : {α : Type} → Fut α → Nat → Option (α × Nat)
  | _, .ready x, _ => some (x, 0)
  | _, .pending, _ => none
  | _, .select a b, fuel =>
    if a.check_resolved then (a.await_completion fuel).map fun p => (Sum.inl p.1, p.2)
    else if b.check_resolved then (b.await_completion fuel).map fun p => (Sum.inr p.1, p.2)
    else
      match fuel with
      | 0 => none
      | n + 1 => ((Fut.select a b).await_completion n).map fun p => (p.1, p.2 + 1)
  | _, .join a b, fuel =>
    match a.await_completion fuel, b.await_completion fuel with
    | some (x, m), some (y, n) => some ((x, y), m + n)
    | _, _ => none
termination_by α f fuel => (sizeOf f, fuel)

/-- A sample nonempty frame used by the concrete witnesses. -/
def sampleFrame : Frame :=
  { header_len := 3, payload_len := 4, mic_len := 0, body := List.replicate 127 1 }

/-- A second sample frame. -/
def sampleFrame2 : Frame :=
  { header_len := 5, payload_len := 6, mic_len := 2, body := List.replicate 127 2 }

/-- A capacity-2 buffer holding one frame (witness fixture). -/
def fullishBuf : RxRingBuffer :=
  { read_index := 0, write_index := 1, frames := [sampleFrame, EMPTY_FRAME] }

/-- A capacity-300 buffer mid-stream (counterexample fixture: the capacity
does not fit in the byte arithmetic of `next_frame`). -/
def wideBuf : RxRingBuffer :=
  { read_index := 43, write_index := 50, frames := List.replicate 300 EMPTY_FRAME }

/-- Exchange state with both buffers empty (witness fixture). -/
def emptyExchange : ExchangeState :=
  { owned_is_first := true, buf1 := RxRingBuffer.new 2, buf2 := RxRingBuffer.new 2 }

/-- Exchange state whose owned buffer holds a frame (witness fixture). -/
def readyExchange : ExchangeState :=
  { owned_is_first := true, buf1 := fullishBuf, buf2 := RxRingBuffer.new 2 }

/-- Kernel environment where every call succeeds, the kernel writes nothing,
and the upcall fires (witness fixture). -/
def idleEnv : KernelEnv :=
  { subscribe_res := .ok (), allow1_res := .ok (), kmut1 := fun b => b,
    upcall_arrives := true, allow2_res := .ok (), kmut2 := fun b => b }

/-- Environment whose `subscribe` fails (witness fixture). -/
def subscribeFailEnv : KernelEnv :=
  { idleEnv with subscribe_res := .error ErrorCode.busy }

/-- Environment whose first swap's `allow_rw` fails (witness fixture). -/
def allow1FailEnv : KernelEnv :=
  { idleEnv with allow1_res := .error ErrorCode.nodevice }

/-- Environment whose second swap's `allow_rw` fails (witness fixture). -/
def allow2FailEnv : KernelEnv :=
  { idleEnv with allow2_res := .error ErrorCode.invalid }

/-- Console lent-buffer handle fixture. -/
def sampleAllowed : AllowedBuf :=
  { contents := [1, 2, 3], shared := true }

/-- The payload of the spec's `Join(Ready(1), Ready("a"))` scenario. -/
def strA : String := "a"

/-- A capacity-257 buffer (counterexample fixture: capacity one above the
byte bound). -/
def narrowBuf : RxRingBuffer :=
  { read_index := 0, write_index := 5, frames := List.replicate 257 EMPTY_FRAME }

/-- A capacity-256 buffer (witness fixture for the `% 0` panic). -/
def buf256 : RxRingBuffer :=
  { read_index := 0, write_index := 0, frames := List.replicate 256 EMPTY_FRAME }

/-- Mirror of the full `RxBufferAlternatingOperator` state (rx.rs): the buffer
exchange (`buf_ours` / `buf_kernels`) plus the operator's
`upcall: Cell<Option<(u32,)>>` field, holding the lqi of the last delivered
frame-received upcall if any. -/
structure AlternatingOperator where
  exch : ExchangeState
  upcall : Option Nat
deriving DecidableEq

/-- Mirror of `RxBufferAlternatingOperator::receive_frame` at operator level:
the blocking path uses a local `called` cell (rx.rs:307) and never touches
`self.upcall`, so the operator's cell is carried through unchanged. -/
def receive_frame_op (op : AlternatingOperator) (env : KernelEnv) :
    RxOutcome × AlternatingOperator × List KInteraction :=
  match receive_frame op.exch env with
  | (out, st', ints) => (out, { exch := st', upcall := op.upcall }, ints)

/-- Mirror of `RxBufferAlternatingOperator::receive_frame_fut` at operator
level.  `self.upcall.set(None)` (rx.rs:358) runs before anything else — in
particular before the fast-path `has_frame` check — so the cell is cleared
even when a frame is popped with no kernel interaction.  Upcalls are
delivered only at yield-wait and this function never yields, so the cell is
still `none` at every return point. -/
def receive_frame_fut_op (op : AlternatingOperator) (env : KernelEnv) :
    FutStep × List KInteraction × AlternatingOperator :=
  if op.exch.owned.has_frame then
    match op.exch.owned.next_frame with
    | some fb => (FutStep.frameNow fb.1 (op.exch.setOwned fb.2), [],
        { exch := op.exch.setOwned fb.2, upcall := none })
    | none => (FutStep.panicked, [], { exch := op.exch, upcall := none })
  else
    match env.subscribe_res with
    | .error e => (FutStep.errored e, [KInteraction.subscribeCall],
        { exch := op.exch, upcall := none })
    | .ok _ =>
      match swapStep op.exch env.allow1_res env.kmut1 with
      | .error e => (FutStep.errored e,
          [KInteraction.subscribeCall, KInteraction.allowCall],
          { exch := op.exch, upcall := none })
      | .ok st1 =>
        if st1.owned.has_frame then
          match st1.owned.next_frame with
          | some fb => (FutStep.frameNow fb.1 (st1.setOwned fb.2),
              [KInteraction.subscribeCall, KInteraction.allowCall],
              { exch := st1.setOwned fb.2, upcall := none })
          | none => (FutStep.panicked,
              [KInteraction.subscribeCall, KInteraction.allowCall],
              { exch := st1, upcall := none })
        else (FutStep.futPending st1,
            [KInteraction.subscribeCall, KInteraction.allowCall],
            { exch := st1, upcall := none })

/-- Operator whose owned buffer holds a frame and whose upcall cell still
holds the lqi of a previously delivered upcall (counterexample fixture). -/
def readyOperator : AlternatingOperator :=
  { exch := readyExchange, upcall := some 7 }

theorem getD_set_self {α : Type} (l : List α) (i : Nat) (a d : α) (h : i < l.length) :
    (l.set i a).getD i d = a := by
  simp [List.getD_eq_getElem?_getD, List.getElem?_set_self', List.getElem?_eq_getElem h]

theorem getD_set_ne {α : Type} (l : List α) (i j : Nat) (a d : α) (h : i ≠ j) :
    (l.set i a).getD j d = l.getD j d := by
  simp [List.getD_eq_getElem?_getD, List.getElem?_set_ne h]

theorem range_map_getD {α : Type} (fs : List α) (d : α) :
    (List.range fs.length).map (fun i => fs.getD i d) = fs := by
  induction fs with
  | nil => simp
  | cons a rest ih =>
    rw [List.length_cons, List.range_succ_eq_map, List.map_cons, List.map_map]
    have hfun : ((fun i => (a :: rest).getD i d) ∘ Nat.succ) = fun i => rest.getD i d := by
      funext i
      simp [Function.comp, List.getD_cons_succ]
    rw [hfun, ih, List.getD_cons_zero]

theorem next_frame_eq (b : RxRingBuffer) (hr : b.read_index < b.frames.length)
    (hlen : b.frames.length ≤ 255) :
    b.next_frame = some (b.frames.getD b.read_index EMPTY_FRAME,
      { b with read_index := (b.read_index + 1) % b.frames.length }) := by
  have h1 : b.frames.get? b.read_index = some (b.frames.getD b.read_index EMPTY_FRAME) := by
    rw [List.get?_eq_getElem?, List.getElem?_eq_getElem hr,
      List.getD_eq_getElem?_getD, List.getElem?_eq_getElem hr]
    rfl
  have hm : b.frames.length % 256 = b.frames.length := Nat.mod_eq_of_lt (by omega)
  have h2 : (b.read_index + 1) % 256 = b.read_index + 1 := Nat.mod_eq_of_lt (by omega)
  have h0 : ¬b.frames.length % 256 = 0 := by omega
  unfold RxRingBuffer.next_frame
  simp only [h1]
  rw [if_neg h0, hm, h2]

theorem writeAll_spec (fs : List Frame) : ∀ b : RxRingBuffer,
    b.write_index + fs.length < b.frames.length →
    (writeAll b fs).read_index = b.read_index
  ∧ (writeAll b fs).write_index = b.write_index + fs.length
  ∧ (writeAll b fs).frames.length = b.frames.length
  ∧ (∀ j, j < b.write_index →
      (writeAll b fs).frames.getD j EMPTY_FRAME = b.frames.getD j EMPTY_FRAME)
  ∧ (∀ i, i < fs.length →
      (writeAll b fs).frames.getD (b.write_index + i) EMPTY_FRAME = fs.getD i EMPTY_FRAME) := by
  induction fs with
  | nil =>
    intro b _
    refine ⟨rfl, by simp [writeAll], rfl, fun j _ => rfl, fun i hi => absurd hi (by simp)⟩
  | cons f rest ih =>
    intro b hb
    have hlen : (kernelWrite b f).frames.length = b.frames.length := by
      simp [kernelWrite, List.length_set]
    have hwmod : (b.write_index + 1) % b.frames.length = b.write_index + 1 :=
      Nat.mod_eq_of_lt (by simp at hb; omega)
    have hw : (kernelWrite b f).write_index = b.write_index + 1 := by
      simp [kernelWrite, hwmod]
    have hstep : writeAll b (f :: rest) = writeAll (kernelWrite b f) rest := rfl
    have hb' : (kernelWrite b f).write_index + rest.length < (kernelWrite b f).frames.length := by
      rw [hlen, hw]; simp at hb; omega
    obtain ⟨ihr, ihw, ihl, ihlow, ihslot⟩ := ih (kernelWrite b f) hb'
    rw [hstep]
    refine ⟨by rw [ihr]; rfl, ?_, by rw [ihl, hlen], ?_, ?_⟩
    · rw [ihw, hw, List.length_cons]; omega
    · intro j hj
      rw [ihlow j (by rw [hw]; omega)]
      show (b.frames.set b.write_index f).getD j EMPTY_FRAME = b.frames.getD j EMPTY_FRAME
      exact getD_set_ne _ _ _ _ _ (by omega)
    · intro i hi
      match i with
      | 0 =>
        rw [Nat.add_zero, List.getD_cons_zero]
        rw [ihlow b.write_index (by rw [hw]; omega)]
        show (b.frames.set b.write_index f).getD b.write_index EMPTY_FRAME = f
        exact getD_set_self _ _ _ _ (by simp at hb; omega)
      | i' + 1 =>
        rw [List.getD_cons_succ]
        have hpos : b.write_index + (i' + 1) = (kernelWrite b f).write_index + i' := by
          rw [hw]; omega
        rw [hpos]
        exact ihslot i' (by simp at hi; omega)

theorem popAll_no_wrap : ∀ (n : Nat) (b : RxRingBuffer),
    b.frames.length ≤ 255 →
    b.read_index + n < b.frames.length →
    popAll b n = some
      ((List.range n).map fun i => b.frames.getD (b.read_index + i) EMPTY_FRAME,
       { b with read_index := b.read_index + n }) := by
  intro n
  induction n with
  | zero => intro b _ _; rfl
  | succ n ih =>
    intro b hlen hr
    have hstep := next_frame_eq b (by omega) hlen
    have hmod : (b.read_index + 1) % b.frames.length = b.read_index + 1 :=
      Nat.mod_eq_of_lt (by omega)
    rw [hmod] at hstep
    have hrec : popAll { b with read_index := b.read_index + 1 } n = some
        ((List.range n).map fun i => b.frames.getD (b.read_index + 1 + i) EMPTY_FRAME,
         { b with read_index := b.read_index + 1 + n }) := by
      have := ih { b with read_index := b.read_index + 1 } hlen
        (by show b.read_index + 1 + n < b.frames.length; omega)
      simpa using this
    have hfun : ((fun i => b.frames.getD (b.read_index + i) EMPTY_FRAME) ∘ Nat.succ)
        = fun i => b.frames.getD (b.read_index + 1 + i) EMPTY_FRAME := by
      funext i
      simp only [Function.comp]
      have h : b.read_index + Nat.succ i = b.read_index + 1 + i := by omega
      rw [h]
    have he : b.read_index + (n + 1) = b.read_index + 1 + n := by omega
    simp only [popAll, hstep, hrec]
    rw [List.range_succ_eq_map, List.map_cons, List.map_map, Nat.add_zero, he, hfun]
    simp only [Nat.add_zero]

set_option maxRecDepth 4000 in
/-- C1 (counterexample): the claim quantifies over every capacity `N ≥ 2`, but
at capacity 256 the modulus `N as u8` is zero, so the very first pop panics
(`% 0`): one kernel write followed by one pop returns no frame at all instead
of the written frame. -/
theorem ring_fifo_cap256_pop_panics :
    popAll (writeAll (RxRingBuffer.new 256) [sampleFrame]) 1 = none := by
  rfl

/-- C1 (amended): for every capacity `2 ≤ N ≤ 255` (so that the capacity
survives the `u8` index arithmetic) and every sequence of `k ≤ N-1` kernel
writes followed by `k` application pops, the pops return exactly the written
frames, in write order, leaving the buffer empty; and the concrete capacity-3
scenario (two writes, one pop, one write, two pops) returns the frames in
original write order and ends with `read_index == write_index`. -/
theorem ring_fifo_write_order (N : Nat) (fs : List Frame)
    (h2 : 2 ≤ N) (h255 : N ≤ 255) (hk : fs.length ≤ N - 1) :
    (∃ b', popAll (writeAll (RxRingBuffer.new N) fs) fs.length = some (fs, b')
        ∧ b'.read_index = b'.write_index)
  ∧ (∀ f1 f2 f3 : Frame, ∃ b2 b4,
      popAll (writeAll (RxRingBuffer.new 3) [f1, f2]) 1 = some ([f1], b2)
    ∧ popAll (kernelWrite b2 f3) 2 = some ([f2, f3], b4)
    ∧ b4.read_index = b4.write_index) := by
  constructor
  · have hkN : fs.length < N := by omega
    have hb0len : (RxRingBuffer.new N).frames.length = N := by
      simp [RxRingBuffer.new]
    obtain ⟨hrd, hwr, hln, _, hslots⟩ := writeAll_spec fs (RxRingBuffer.new N)
      (by rw [hb0len]; show 0 + fs.length < N; omega)
    have hpop := popAll_no_wrap fs.length (writeAll (RxRingBuffer.new N) fs)
      (by rw [hln, hb0len]; omega)
      (by rw [hln, hb0len, hrd]; show 0 + fs.length < N; omega)
    have hlist : ((List.range fs.length).map fun i =>
        (writeAll (RxRingBuffer.new N) fs).frames.getD
          ((writeAll (RxRingBuffer.new N) fs).read_index + i) EMPTY_FRAME) = fs := by
      have hcongr : ∀ i ∈ List.range fs.length,
          (writeAll (RxRingBuffer.new N) fs).frames.getD
            ((writeAll (RxRingBuffer.new N) fs).read_index + i) EMPTY_FRAME
          = fs.getD i EMPTY_FRAME := by
        intro i hi
        rw [List.mem_range] at hi
        have := hslots i hi
        rw [hrd]
        show (writeAll (RxRingBuffer.new N) fs).frames.getD (0 + i) EMPTY_FRAME = _
        exact this
      rw [List.map_congr_left hcongr, range_map_getD]
    refine ⟨{ writeAll (RxRingBuffer.new N) fs with
        read_index := (writeAll (RxRingBuffer.new N) fs).read_index + fs.length }, ?_, ?_⟩
    · rw [hpop, hlist]
    · show (writeAll (RxRingBuffer.new N) fs).read_index + fs.length
        = (writeAll (RxRingBuffer.new N) fs).write_index
      rw [hrd, hwr]
      rfl
  · exact fun f1 f2 f3 => ⟨_, _, rfl, rfl, rfl⟩

/-- C1 (witness): capacity 3, two concrete frames written then popped. -/
theorem ring_fifo_write_order_witness :
    (2 ≤ 3 ∧ (3 : Nat) ≤ 255 ∧ ([sampleFrame, sampleFrame2] : List Frame).length ≤ 3 - 1)
  ∧ (∃ b', popAll (writeAll (RxRingBuffer.new 3) [sampleFrame, sampleFrame2])
        ([sampleFrame, sampleFrame2] : List Frame).length
        = some ([sampleFrame, sampleFrame2], b')
    ∧ b'.read_index = b'.write_index) :=
  ⟨⟨by decide, by decide, by decide⟩,
   (ring_fifo_write_order 3 [sampleFrame, sampleFrame2]
     (by decide) (by decide) (by decide)).1⟩

theorem avail_step (r w N : Nat) (hr : r < N) (hw : w < N) (hne : r ≠ w) :
    (w + N - (r + 1) % N) % N = (w + N - r) % N - 1 := by
  rcases Nat.eq_or_lt_of_le (Nat.succ_le_of_lt hr) with h | h
  · have hr1 : r + 1 = N := h
    have h0 : (r + 1) % N = 0 := by rw [hr1, Nat.mod_self]
    have hwr : w < r := by omega
    have e1 : w + N - r = w + 1 := by omega
    rw [h0, Nat.sub_zero, Nat.add_mod_right, Nat.mod_eq_of_lt hw, e1,
      Nat.mod_eq_of_lt (by omega)]
    omega
  · rw [Nat.mod_eq_of_lt h]
    rcases Nat.lt_or_ge w r with hlt | hge
    · rw [Nat.mod_eq_of_lt (show w + N - (r + 1) < N by omega),
        Nat.mod_eq_of_lt (show w + N - r < N by omega)]
      omega
    · have hgt : r < w := by omega
      have e1 : w + N - (r + 1) = w - r - 1 + N := by omega
      have e2 : w + N - r = w - r + N := by omega
      rw [e1, e2, Nat.add_mod_right, Nat.add_mod_right,
        Nat.mod_eq_of_lt (show w - r - 1 < N by omega),
        Nat.mod_eq_of_lt (show w - r < N by omega)]

set_option maxRecDepth 8000 in
/-- C4 (counterexample): the claim quantifies over every ring buffer state,
but at capacity 300 the byte-truncated modulus (`300 as u8 == 44`) makes the
pop advance `read_index` from 43 to 0 instead of to `(43+1) % 300 = 44`:
`next_frame` does not advance `read_index` by one modulo `N`. -/
theorem pop_advance_truncated_modulus_cex :
    wideBuf.next_frame = some (EMPTY_FRAME,
      { read_index := 0, write_index := 50, frames := List.replicate 300 EMPTY_FRAME })
  ∧ (wideBuf.read_index + 1) % wideBuf.frames.length = 44 := by
  constructor <;> rfl

/-- C4 (amended): for buffer states whose capacity fits the byte index
arithmetic (`N ≤ 255`) and whose indices are in range, `has_frame` is false
exactly when `read_index == write_index`; a pop advances `read_index` by one
modulo `N`, touching nothing else; popping a nonempty buffer decreases the
number of readable frames by exactly one (so the reader never passes
`write_index`); and at most `N-1` slots are ever readable. -/
theorem ring_empty_criterion_and_pop_advance
    (b0 b b' : RxRingBuffer) (f : Frame)
    (h0 : 0 < b0.frames.length)
    (hlen : b.frames.length ≤ 255)
    (hr : b.read_index < b.frames.length)
    (hw : b.write_index < b.frames.length)
    (hhf : b.has_frame = true)
    (hpop : b.next_frame = some (f, b')) :
    (b0.has_frame = false ↔ b0.read_index = b0.write_index)
  ∧ b'.read_index = (b.read_index + 1) % b.frames.length
  ∧ b'.write_index = b.write_index
  ∧ b'.frames = b.frames
  ∧ b'.available = b.available - 1
  ∧ 1 ≤ b.available
  ∧ b0.available ≤ b0.frames.length - 1 := by
  have hne : b.read_index ≠ b.write_index := by
    simpa [RxRingBuffer.has_frame] using hhf
  have hb' := next_frame_eq b hr hlen
  rw [hpop] at hb'
  simp only [Option.some.injEq, Prod.mk.injEq] at hb'
  obtain ⟨-, hbb⟩ := hb'
  have hread : b'.read_index = (b.read_index + 1) % b.frames.length := by
    rw [hbb]
  have hwrite : b'.write_index = b.write_index := by rw [hbb]
  have hframes : b'.frames = b.frames := by rw [hbb]
  refine ⟨by simp [RxRingBuffer.has_frame], hread, hwrite, hframes, ?_, ?_, ?_⟩
  · show (b'.write_index + b'.frames.length - b'.read_index) % b'.frames.length
      = b.available - 1
    rw [hread, hwrite, hframes]
    exact avail_step b.read_index b.write_index b.frames.length hr hw hne
  · show 1 ≤ (b.write_index + b.frames.length - b.read_index) % b.frames.length
    rcases Nat.lt_or_ge b.read_index b.write_index with hlt | hge
    · have e : b.write_index + b.frames.length - b.read_index
          = b.write_index - b.read_index + b.frames.length := by omega
      rw [e, Nat.add_mod_right, Nat.mod_eq_of_lt (by omega)]
      omega
    · have hgt : b.write_index < b.read_index := by omega
      rw [Nat.mod_eq_of_lt (by omega)]
      omega
  · have := Nat.mod_lt (b0.write_index + b0.frames.length - b0.read_index) h0
    show (b0.write_index + b0.frames.length - b0.read_index) % b0.frames.length
      ≤ b0.frames.length - 1
    omega

/-- C4 (witness): the capacity-2 one-frame buffer popped once. -/
theorem ring_empty_criterion_and_pop_advance_witness :
    (0 < (RxRingBuffer.new 2).frames.length
    ∧ fullishBuf.frames.length ≤ 255
    ∧ fullishBuf.read_index < fullishBuf.frames.length
    ∧ fullishBuf.write_index < fullishBuf.frames.length
    ∧ fullishBuf.has_frame = true
    ∧ fullishBuf.next_frame = some (sampleFrame,
        { read_index := 1, write_index := 1, frames := [sampleFrame, EMPTY_FRAME] }))
  ∧ (((RxRingBuffer.new 2).has_frame = false
      ↔ (RxRingBuffer.new 2).read_index = (RxRingBuffer.new 2).write_index)
    ∧ ({ read_index := 1, write_index := 1,
         frames := [sampleFrame, EMPTY_FRAME] } : RxRingBuffer).read_index
        = (fullishBuf.read_index + 1) % fullishBuf.frames.length
    ∧ ({ read_index := 1, write_index := 1,
         frames := [sampleFrame, EMPTY_FRAME] } : RxRingBuffer).write_index
        = fullishBuf.write_index
    ∧ ({ read_index := 1, write_index := 1,
         frames := [sampleFrame, EMPTY_FRAME] } : RxRingBuffer).frames = fullishBuf.frames
    ∧ ({ read_index := 1, write_index := 1,
         frames := [sampleFrame, EMPTY_FRAME] } : RxRingBuffer).available
        = fullishBuf.available - 1
    ∧ 1 ≤ fullishBuf.available
    ∧ (RxRingBuffer.new 2).available ≤ (RxRingBuffer.new 2).frames.length - 1) :=
  ⟨⟨by decide, by decide, by decide, by decide, by decide, rfl⟩,
   ring_empty_criterion_and_pop_advance (RxRingBuffer.new 2) fullishBuf
     { read_index := 1, write_index := 1, frames := [sampleFrame, EMPTY_FRAME] }
     sampleFrame (by decide) (by decide) (by decide) (by decide) (by decide) rfl⟩

set_option maxRecDepth 8000 in
/-- C10: for every capacity `1 ≤ N ≤ 255` the invariant
`read_index < capacity` holds initially and is preserved by the kernel write
and by `next_frame`, whose slot lookup therefore always succeeds; the byte
bound is necessary: at capacity 256 the truncated modulus is zero so every
pop panics, and at capacity 257 the truncated modulus yields a wrong index
(a pop from `read_index = 0` lands on 0 instead of `(0+1) % 257 = 1`). -/
theorem ring_index_invariant_and_byte_bound
    (N : Nat) (b c256 : RxRingBuffer) (f : Frame)
    (hN : 1 ≤ N)
    (hb255 : b.frames.length ≤ 255)
    (hInv : b.read_index < b.frames.length)
    (h256 : c256.frames.length = 256) :
    ((RxRingBuffer.new N).read_index < (RxRingBuffer.new N).frames.length)
  ∧ ((kernelWrite b f).read_index < (kernelWrite b f).frames.length)
  ∧ (∃ fr b', b.next_frame = some (fr, b') ∧ b'.read_index < b'.frames.length)
  ∧ c256.next_frame = none
  ∧ (∃ fr b', narrowBuf.next_frame = some (fr, b') ∧ b'.read_index = 0
      ∧ (narrowBuf.read_index + 1) % narrowBuf.frames.length = 1) := by
  refine ⟨?_, ?_, ?_, ?_, ?_⟩
  · show (0 : Nat) < (List.replicate N EMPTY_FRAME).length
    rw [List.length_replicate]
    omega
  · show b.read_index < (b.frames.set b.write_index f).length
    rw [List.length_set]
    exact hInv
  · refine ⟨_, _, next_frame_eq b hInv hb255, ?_⟩
    show (b.read_index + 1) % b.frames.length < b.frames.length
    exact Nat.mod_lt _ (by omega)
  · unfold RxRingBuffer.next_frame
    rcases hg : c256.frames.get? c256.read_index with _ | f'
    · rfl
    · simp [h256]
  · exact ⟨EMPTY_FRAME, _, rfl, rfl, rfl⟩

set_option maxRecDepth 8000 in
/-- C10 (witness): capacity 2 in-range state, and the concrete 256-capacity
buffer whose pop panics. -/
theorem ring_index_invariant_and_byte_bound_witness :
    (1 ≤ 2 ∧ fullishBuf.frames.length ≤ 255
    ∧ fullishBuf.read_index < fullishBuf.frames.length
    ∧ buf256.frames.length = 256)
  ∧ (((RxRingBuffer.new 2).read_index < (RxRingBuffer.new 2).frames.length)
    ∧ ((kernelWrite fullishBuf sampleFrame).read_index
        < (kernelWrite fullishBuf sampleFrame).frames.length)
    ∧ (∃ fr b', fullishBuf.next_frame = some (fr, b')
        ∧ b'.read_index < b'.frames.length)
    ∧ buf256.next_frame = none
    ∧ (∃ fr b', narrowBuf.next_frame = some (fr, b') ∧ b'.read_index = 0
        ∧ (narrowBuf.read_index + 1) % narrowBuf.frames.length = 1)) :=
  ⟨⟨by decide, by decide, by decide, by rfl⟩,
   ring_index_invariant_and_byte_bound 2 fullishBuf buf256 sampleFrame
     (by decide) (by decide) (by decide) (by rfl)⟩

theorem await_of_resolved {α : Type} (f : Fut α) :
    ∀ fuel : Nat, f.check_resolved = true →
      ∃ v, f.await_completion fuel = some (v, 0) := by
  induction f with
  | ready x => exact fun fuel _ => ⟨x, by rw [Fut.await_completion.eq_def]⟩
  | pending => exact fun fuel h => absurd h (by simp [Fut.check_resolved])
  | select a b iha ihb =>
    intro fuel h
    rw [show (Fut.select a b).check_resolved = (a.check_resolved || b.check_resolved)
      from rfl, Bool.or_eq_true] at h
    cases hac : a.check_resolved with
    | true =>
      obtain ⟨v, hv⟩ := iha fuel hac
      refine ⟨Sum.inl v, ?_⟩
      rw [Fut.await_completion.eq_def]
      dsimp only
      rw [if_pos hac, hv]
      rfl
    | false =>
      have hbc : b.check_resolved = true := by
        rcases h with h | h
        · rw [hac] at h; exact absurd h (by simp)
        · exact h
      obtain ⟨v, hv⟩ := ihb fuel hbc
      refine ⟨Sum.inr v, ?_⟩
      rw [Fut.await_completion.eq_def]
      dsimp only
      rw [if_neg (by simp [hac]), if_pos hbc, hv]
      rfl
  | join a b iha ihb =>
    intro fuel h
    rw [show (Fut.join a b).check_resolved = (a.check_resolved && b.check_resolved)
      from rfl, Bool.and_eq_true] at h
    obtain ⟨va, hva⟩ := iha fuel h.1
    obtain ⟨vb, hvb⟩ := ihb fuel h.2
    refine ⟨(va, vb), ?_⟩
    rw [Fut.await_completion.eq_def]
    dsimp only
    rw [hva, hvb]

/-- C5: `Select(A, B)` is resolved when either component is; `await_completion`
polls `A` then `B` each cooperative cycle, so whenever `A` is resolved —
including ties where both are — the left result wins with zero yield cycles;
`Select(Ready(x), Pending)` resolves immediately to the left-tagged `x` and
`Select(Pending, Ready(y))` to the right-tagged `y`, each consuming zero
yield cycles. -/
theorem select_semantics {α β : Type} (a : Fut α) (b : Fut β) (fuel : Nat)
    (x : α) (y : β)
    (ha : a.check_resolved = true) (hb : b.check_resolved = true) :
    ((Fut.select a b).check_resolved = (a.check_resolved || b.check_resolved))
  ∧ (∃ v, a.await_completion fuel = some (v, 0)
      ∧ (Fut.select a b).await_completion fuel = some (Sum.inl v, 0))
  ∧ ((Fut.select (Fut.ready x) (Fut.pending : Fut β)).await_completion fuel
      = some (Sum.inl x, 0))
  ∧ ((Fut.select (Fut.pending : Fut α) (Fut.ready y)).await_completion fuel
      = some (Sum.inr y, 0)) := by
  refine ⟨rfl, ?_, ?_, ?_⟩
  · obtain ⟨v, hv⟩ := await_of_resolved a fuel ha
    refine ⟨v, hv, ?_⟩
    rw [Fut.await_completion.eq_def]
    dsimp only
    rw [if_pos ha, hv]
    rfl
  · rw [Fut.await_completion.eq_def]
    dsimp only
    rw [if_pos (show (Fut.ready x).check_resolved = true from rfl),
      Fut.await_completion.eq_def]
    rfl
  · rw [Fut.await_completion.eq_def]
    dsimp only
    rw [if_neg (show ¬(Fut.pending : Fut α).check_resolved = true by simp [Fut.check_resolved]),
      if_pos (show (Fut.ready y).check_resolved = true from rfl),
      Fut.await_completion.eq_def]
    rfl

/-- C5 (witness): both components resolved, and the two concrete scenarios. -/
theorem select_semantics_witness :
    ((Fut.ready (1 : Nat)).check_resolved = true
    ∧ (Fut.ready (2 : Nat)).check_resolved = true)
  ∧ (((Fut.select (Fut.ready (1 : Nat)) (Fut.ready (2 : Nat))).check_resolved
      = ((Fut.ready (1 : Nat)).check_resolved || (Fut.ready (2 : Nat)).check_resolved))
    ∧ (∃ v, (Fut.ready (1 : Nat)).await_completion 0 = some (v, 0)
        ∧ (Fut.select (Fut.ready (1 : Nat)) (Fut.ready (2 : Nat))).await_completion 0
          = some (Sum.inl v, 0))
    ∧ ((Fut.select (Fut.ready (5 : Nat)) (Fut.pending : Fut Nat)).await_completion 0
        = some (Sum.inl 5, 0))
    ∧ ((Fut.select (Fut.pending : Fut Nat) (Fut.ready (7 : Nat))).await_completion 0
        = some (Sum.inr 7, 0))) :=
  ⟨⟨rfl, rfl⟩, select_semantics (Fut.ready 1) (Fut.ready 2) 0 5 7 rfl rfl⟩

/-- C7: `Join(A, B)` is resolved only when both components are; its
`await_completion` collects `A`'s result then `B`'s and returns the pair;
`Join(Ready(1), Ready("a"))` awaits to `(1, "a")` consuming zero yield
cycles. -/
theorem join_semantics {α β : Type} (a : Fut α) (b : Fut β) (fuel : Nat)
    (ha : a.check_resolved = true) (hb : b.check_resolved = true) :
    ((Fut.join a b).check_resolved = (a.check_resolved && b.check_resolved))
  ∧ (∃ va vb, a.await_completion fuel = some (va, 0)
      ∧ b.await_completion fuel = some (vb, 0)
      ∧ (Fut.join a b).await_completion fuel = some ((va, vb), 0))
  ∧ ((Fut.join (Fut.ready (1 : Nat)) (Fut.ready strA)).await_completion fuel
      = some ((1, strA), 0)) := by
  refine ⟨rfl, ?_, ?_⟩
  · obtain ⟨va, hva⟩ := await_of_resolved a fuel ha
    obtain ⟨vb, hvb⟩ := await_of_resolved b fuel hb
    refine ⟨va, vb, hva, hvb, ?_⟩
    rw [Fut.await_completion.eq_def]
    dsimp only
    rw [hva, hvb]
  · rw [Fut.await_completion.eq_def]
    dsimp only
    rw [Fut.await_completion.eq_1, Fut.await_completion.eq_1]

/-- C7 (witness): the concrete `Join(Ready(1), Ready("a"))` instance. -/
theorem join_semantics_witness :
    ((Fut.ready (1 : Nat)).check_resolved = true
    ∧ (Fut.ready strA).check_resolved = true)
  ∧ (((Fut.join (Fut.ready (1 : Nat)) (Fut.ready strA)).check_resolved
      = ((Fut.ready (1 : Nat)).check_resolved && (Fut.ready strA).check_resolved))
    ∧ (∃ va vb, (Fut.ready (1 : Nat)).await_completion 0 = some (va, 0)
        ∧ (Fut.ready strA).await_completion 0 = some (vb, 0)
        ∧ (Fut.join (Fut.ready (1 : Nat)) (Fut.ready strA)).await_completion 0
          = some ((va, vb), 0))
    ∧ ((Fut.join (Fut.ready (1 : Nat)) (Fut.ready strA)).await_completion 0
        = some ((1, strA), 0))) :=
  ⟨⟨rfl, rfl⟩, join_semantics (Fut.ready 1) (Fut.ready strA) 0 rfl rfl⟩

/-- C9: the single-buffer operator's timed-receive entry point is a stub
(`todo!()`): on every input it panics and never produces `Ok` or a specific
error. -/
theorem receive_frame_timed_stub_panics (op : RxSingleBufferOperator) (t : Nat) :
    op.receive_frame_timed t = TimedOutcome.panicked
  ∧ (∀ fr, op.receive_frame_timed t ≠ TimedOutcome.ok fr)
  ∧ (∀ e, op.receive_frame_timed t ≠ TimedOutcome.err e) :=
  ⟨rfl, fun _ h => TimedOutcome.noConfusion h,
   fun _ h => TimedOutcome.noConfusion h⟩

/-- C6 (counterexample): the claim says a failed reshare closes the handle
and makes every further operation fail, but `AllowedBuf` has no closed state:
after an `inspect` whose reshare fails, a further `inspect` whose reshare
succeeds returns `Ok`. -/
theorem inspect_after_failed_reshare_succeeds_cex :
    (sampleAllowed.inspect (fun c => c) (Except.error ErrorCode.fail)).1
      = Except.error ErrorCode.fail
  ∧ ((sampleAllowed.inspect (fun c => c) (Except.error ErrorCode.fail)).2.inspect
      (fun c => c) (Except.ok ())).1 = Except.ok () :=
  ⟨rfl, rfl⟩

/-- C6 (amended): `inspect` revokes sharing, invokes the caller's function
with exclusive access to the region, then immediately reshares it; if the
reshare fails the error is returned to the caller and the region is left
unshared, but the handle does not transition to a closed state — further
operations remain possible and a later `inspect` whose reshare succeeds
succeeds and reshares the region. -/
theorem inspect_revoke_invoke_reshare (b : AllowedBuf)
    (f g : List Nat → List Nat) (e : ErrorCode) :
    b.inspect f (Except.ok ())
      = (Except.ok (), { contents := f b.contents, shared := true })
  ∧ b.inspect f (Except.error e)
      = (Except.error e, { contents := f b.contents, shared := false })
  ∧ ((b.inspect f (Except.error e)).2.inspect g (Except.ok ())).1 = Except.ok ()
  ∧ ((b.inspect f (Except.error e)).2.inspect g (Except.ok ())).2
      = { contents := g (f b.contents), shared := true } :=
  ⟨rfl, rfl, rfl, rfl⟩

theorem owned_flip_setLent (st : ExchangeState) (b : RxRingBuffer) :
    ({ st.setLent b with owned_is_first := !st.owned_is_first } : ExchangeState).owned = b := by
  cases h : st.owned_is_first <;>
    simp [ExchangeState.setLent, ExchangeState.owned, h]

theorem lent_flip_setLent (st : ExchangeState) (b : RxRingBuffer) :
    ({ st.setLent b with owned_is_first := !st.owned_is_first } : ExchangeState).lent
      = st.owned := by
  cases h : st.owned_is_first <;>
    simp [ExchangeState.setLent, ExchangeState.lent, ExchangeState.owned, h]

theorem owned_afterFirstSwap (st : ExchangeState) (env : KernelEnv) :
    (afterFirstSwap st env).owned = env.kmut1 st.lent :=
  owned_flip_setLent st (env.kmut1 st.lent)

theorem lent_afterFirstSwap (st : ExchangeState) (env : KernelEnv) :
    (afterFirstSwap st env).lent = st.owned :=
  lent_flip_setLent st (env.kmut1 st.lent)

theorem lent_setOwned (st : ExchangeState) (b : RxRingBuffer) :
    (st.setOwned b).lent = st.lent := by
  cases h : st.owned_is_first <;>
    simp [ExchangeState.setOwned, ExchangeState.lent, h]

theorem flag_setOwned (st : ExchangeState) (b : RxRingBuffer) :
    (st.setOwned b).owned_is_first = st.owned_is_first := by
  cases h : st.owned_is_first <;>
    simp [ExchangeState.setOwned, h]

/-- C2: in the dual-buffer exchange, if the owned buffer is empty, subscribe
and both swaps succeed, the reclaimed buffer after the first swap is empty,
the upcall fires, and the buffer reclaimed by the second swap still has no
frame, then `receive_frame` panics (the `assert!`), and never returns an
error value; the future path behaves identically: `receive_frame_fut`
returns the pending future and its `await_completion` panics rather than
returning an error. -/
theorem post_second_swap_absence_is_panic (st : ExchangeState) (env : KernelEnv)
    (h0 : st.owned.has_frame = false)
    (hs : env.subscribe_res = Except.ok ())
    (ha1 : env.allow1_res = Except.ok ())
    (h1 : (env.kmut1 st.lent).has_frame = false)
    (hu : env.upcall_arrives = true)
    (ha2 : env.allow2_res = Except.ok ())
    (h2 : (env.kmut2 st.owned).has_frame = false) :
    (receive_frame st env).1 = RxOutcome.panicked
  ∧ (∀ e, (receive_frame st env).1 ≠ RxOutcome.err e)
  ∧ receive_frame_fut st env
      = (FutStep.futPending (afterFirstSwap st env),
         [KInteraction.subscribeCall, KInteraction.allowCall])
  ∧ (alternating_await_completion (afterFirstSwap st env) env).1 = RxOutcome.panicked
  ∧ (∀ e, (alternating_await_completion (afterFirstSwap st env) env).1
      ≠ RxOutcome.err e) := by
  have hsw1 : swapStep st env.allow1_res env.kmut1 = Except.ok (afterFirstSwap st env) := by
    rw [ha1]; rfl
  have hof1 : (afterFirstSwap st env).owned.has_frame = false := by
    rw [owned_afterFirstSwap, h1]
  have hsw2 : swapStep (afterFirstSwap st env) env.allow2_res env.kmut2
      = Except.ok { (afterFirstSwap st env).setLent (env.kmut2 st.owned) with
          owned_is_first := !(afterFirstSwap st env).owned_is_first } := by
    rw [ha2]
    show Except.ok _ = _
    rw [lent_afterFirstSwap]
  have hof2 : ({ (afterFirstSwap st env).setLent (env.kmut2 st.owned) with
      owned_is_first := !(afterFirstSwap st env).owned_is_first } :
        ExchangeState).owned.has_frame = false := by
    rw [owned_flip_setLent, h2]
  have key : receive_frame st env
      = (RxOutcome.panicked,
         { (afterFirstSwap st env).setLent (env.kmut2 st.owned) with
           owned_is_first := !(afterFirstSwap st env).owned_is_first },
         [KInteraction.subscribeCall, KInteraction.allowCall,
          KInteraction.yieldCall, KInteraction.allowCall]) := by
    unfold receive_frame
    rw [if_neg (by rw [h0]; simp), hs]
    dsimp only
    rw [hsw1]
    dsimp only
    rw [if_neg (by rw [hof1]; simp), if_pos hu, hsw2]
    dsimp only
    rw [if_neg (by rw [hof2]; simp)]
  have keyf : receive_frame_fut st env
      = (FutStep.futPending (afterFirstSwap st env),
         [KInteraction.subscribeCall, KInteraction.allowCall]) := by
    unfold receive_frame_fut
    rw [if_neg (by rw [h0]; simp), hs]
    dsimp only
    rw [hsw1]
    dsimp only
    rw [if_neg (by rw [hof1]; simp)]
  have keya : alternating_await_completion (afterFirstSwap st env) env
      = (RxOutcome.panicked,
         { (afterFirstSwap st env).setLent (env.kmut2 st.owned) with
           owned_is_first := !(afterFirstSwap st env).owned_is_first }) := by
    unfold alternating_await_completion
    rw [if_pos hu, hsw2]
    dsimp only
    rw [if_neg (by rw [hof2]; simp)]
  refine ⟨by rw [key], ?_, keyf, by rw [keya], ?_⟩
  · intro e
    rw [key]
    exact fun h => RxOutcome.noConfusion h
  · intro e
    rw [keya]
    exact fun h => RxOutcome.noConfusion h

/-- C2 (witness): both buffers empty, all calls succeed, kernel writes
nothing: the invariant is violated and both paths panic. -/
theorem post_second_swap_absence_is_panic_witness :
    (emptyExchange.owned.has_frame = false
    ∧ idleEnv.subscribe_res = Except.ok ()
    ∧ idleEnv.allow1_res = Except.ok ()
    ∧ (idleEnv.kmut1 emptyExchange.lent).has_frame = false
    ∧ idleEnv.upcall_arrives = true
    ∧ idleEnv.allow2_res = Except.ok ()
    ∧ (idleEnv.kmut2 emptyExchange.owned).has_frame = false)
  ∧ ((receive_frame emptyExchange idleEnv).1 = RxOutcome.panicked
    ∧ (∀ e, (receive_frame emptyExchange idleEnv).1 ≠ RxOutcome.err e)
    ∧ receive_frame_fut emptyExchange idleEnv
        = (FutStep.futPending (afterFirstSwap emptyExchange idleEnv),
           [KInteraction.subscribeCall, KInteraction.allowCall])
    ∧ (alternating_await_completion (afterFirstSwap emptyExchange idleEnv) idleEnv).1
        = RxOutcome.panicked
    ∧ (∀ e, (alternating_await_completion (afterFirstSwap emptyExchange idleEnv) idleEnv).1
        ≠ RxOutcome.err e)) :=
  ⟨⟨rfl, rfl, rfl, rfl, rfl, rfl, rfl⟩,
   post_second_swap_absence_is_panic emptyExchange idleEnv
     rfl rfl rfl rfl rfl rfl rfl⟩

/-- C3: any call-interface failure during subscribe or swap aborts before any
ownership mutation is committed.  A failed `swap` returns the error with no
state produced; a failed subscribe or failed first swap returns the error
with the exchange state — owned-buffer pointer, `read_index`, lent-buffer
identity — exactly as it was; a failed second swap returns the error with the
state exactly as the completed first swap left it. -/
theorem swap_failure_atomicity (st : ExchangeState)
    (e1 e2 e3 : ErrorCode) (kmut : RxRingBuffer → RxRingBuffer)
    (envB envC envD : KernelEnv)
    (h0 : st.owned.has_frame = false)
    (hBs : envB.subscribe_res = Except.error e1)
    (hC0 : envC.subscribe_res = Except.ok ())
    (hC1 : envC.allow1_res = Except.error e2)
    (hD0 : envD.subscribe_res = Except.ok ())
    (hD1 : envD.allow1_res = Except.ok ())
    (hDe : (envD.kmut1 st.lent).has_frame = false)
    (hDu : envD.upcall_arrives = true)
    (hD2 : envD.allow2_res = Except.error e3) :
    swapStep st (Except.error e2) kmut = Except.error e2
  ∧ receive_frame st envB = (RxOutcome.err e1, st, [KInteraction.subscribeCall])
  ∧ receive_frame st envC
      = (RxOutcome.err e2, st, [KInteraction.subscribeCall, KInteraction.allowCall])
  ∧ receive_frame st envD
      = (RxOutcome.err e3, afterFirstSwap st envD,
         [KInteraction.subscribeCall, KInteraction.allowCall,
          KInteraction.yieldCall, KInteraction.allowCall]) := by
  refine ⟨rfl, ?_, ?_, ?_⟩
  · unfold receive_frame
    rw [if_neg (by rw [h0]; simp), hBs]
  · have hsw : swapStep st envC.allow1_res envC.kmut1 = Except.error e2 := by
      rw [hC1]; rfl
    unfold receive_frame
    rw [if_neg (by rw [h0]; simp), hC0]
    dsimp only
    rw [hsw]
  · have hsw1 : swapStep st envD.allow1_res envD.kmut1
        = Except.ok (afterFirstSwap st envD) := by
      rw [hD1]; rfl
    have hof1 : (afterFirstSwap st envD).owned.has_frame = false := by
      rw [owned_afterFirstSwap, hDe]
    have hsw2 : swapStep (afterFirstSwap st envD) envD.allow2_res envD.kmut2
        = Except.error e3 := by
      rw [hD2]; rfl
    unfold receive_frame
    rw [if_neg (by rw [h0]; simp), hD0]
    dsimp only
    rw [hsw1]
    dsimp only
    rw [if_neg (by rw [hof1]; simp), if_pos hDu, hsw2]

/-- C3 (witness): concrete empty exchange with a failing subscribe, a failing
first swap, and a failing second swap. -/
theorem swap_failure_atomicity_witness :
    (emptyExchange.owned.has_frame = false
    ∧ subscribeFailEnv.subscribe_res = Except.error ErrorCode.busy
    ∧ allow1FailEnv.subscribe_res = Except.ok ()
    ∧ allow1FailEnv.allow1_res = Except.error ErrorCode.nodevice
    ∧ allow2FailEnv.subscribe_res = Except.ok ()
    ∧ allow2FailEnv.allow1_res = Except.ok ()
    ∧ (allow2FailEnv.kmut1 emptyExchange.lent).has_frame = false
    ∧ allow2FailEnv.upcall_arrives = true
    ∧ allow2FailEnv.allow2_res = Except.error ErrorCode.invalid)
  ∧ (swapStep emptyExchange (Except.error ErrorCode.nodevice) (fun b => b)
        = Except.error ErrorCode.nodevice
    ∧ receive_frame emptyExchange subscribeFailEnv
        = (RxOutcome.err ErrorCode.busy, emptyExchange, [KInteraction.subscribeCall])
    ∧ receive_frame emptyExchange allow1FailEnv
        = (RxOutcome.err ErrorCode.nodevice, emptyExchange,
           [KInteraction.subscribeCall, KInteraction.allowCall])
    ∧ receive_frame emptyExchange allow2FailEnv
        = (RxOutcome.err ErrorCode.invalid, afterFirstSwap emptyExchange allow2FailEnv,
           [KInteraction.subscribeCall, KInteraction.allowCall,
            KInteraction.yieldCall, KInteraction.allowCall])) :=
  ⟨⟨rfl, rfl, rfl, rfl, rfl, rfl, rfl, rfl, rfl⟩,
   swap_failure_atomicity emptyExchange ErrorCode.busy ErrorCode.nodevice
     ErrorCode.invalid (fun b => b) subscribeFailEnv allow1FailEnv allow2FailEnv
     rfl rfl rfl rfl rfl rfl rfl rfl rfl⟩

/-- C8 (counterexample): the claim says the fast-path pop leaves all operator
state except the owned buffer's `read_index` unchanged in the
`receive_frame_fut` path too, but `self.upcall.set(None)` (rx.rs:358) runs
before the fast-path check: on an operator whose cell holds `Some(7)` from an
earlier delivered upcall, the fast-path pop (frame returned, empty
interaction trace) resets the cell to `None`. -/
theorem fut_fast_path_resets_upcall_cex :
    receive_frame_fut_op readyOperator idleEnv
      = (FutStep.frameNow sampleFrame
           (readyExchange.setOwned
             { read_index := 1, write_index := 1, frames := [sampleFrame, EMPTY_FRAME] }),
         [],
         { exch := readyExchange.setOwned
             { read_index := 1, write_index := 1, frames := [sampleFrame, EMPTY_FRAME] },
           upcall := none })
  ∧ readyOperator.upcall = some 7
  ∧ ¬(receive_frame_fut_op readyOperator idleEnv).2.2.upcall = readyOperator.upcall := by
  refine ⟨rfl, rfl, by decide⟩

/-- C8 (amended): when the owned buffer holds an unread frame, `receive_frame`
and `receive_frame_fut` pop and return it with an empty interaction trace — no
subscribe, allow, command, swap or yield-wait.  In the blocking path the only
operator state change is the owned buffer's `read_index` advancing (the
upcall cell is untouched); in the fut path additionally the operator's upcall
cell is reset to `None` (rx.rs:358) before the fast-path check.  The owned
buffer's frames and `write_index`, the kernel-lent buffer, and the owned/lent
assignment are untouched in both paths. -/
theorem owned_frame_pop_no_kernel_interaction (op : AlternatingOperator) (env : KernelEnv)
    (hh : op.exch.owned.has_frame = true)
    (hr : op.exch.owned.read_index < op.exch.owned.frames.length)
    (hlen : op.exch.owned.frames.length ≤ 255) :
    ∃ f b', op.exch.owned.next_frame = some (f, b')
  ∧ receive_frame_op op env
      = (RxOutcome.ok f, { exch := op.exch.setOwned b', upcall := op.upcall }, [])
  ∧ receive_frame_fut_op op env
      = (FutStep.frameNow f (op.exch.setOwned b'), [],
         { exch := op.exch.setOwned b', upcall := none })
  ∧ b'.write_index = op.exch.owned.write_index
  ∧ b'.frames = op.exch.owned.frames
  ∧ b'.read_index = (op.exch.owned.read_index + 1) % op.exch.owned.frames.length
  ∧ (op.exch.setOwned b').lent = op.exch.lent
  ∧ (op.exch.setOwned b').owned_is_first = op.exch.owned_is_first := by
  have hnf := next_frame_eq op.exch.owned hr hlen
  refine ⟨_, _, hnf, ?_, ?_, rfl, rfl, rfl, lent_setOwned op.exch _, flag_setOwned op.exch _⟩
  · unfold receive_frame_op receive_frame
    rw [if_pos hh, hnf]
  · unfold receive_frame_fut_op
    rw [if_pos hh, hnf]

/-- C8 (witness): operator whose owned buffer holds one frame and whose
upcall cell holds a previously delivered lqi. -/
theorem owned_frame_pop_no_kernel_interaction_witness :
    (readyOperator.exch.owned.has_frame = true
    ∧ readyOperator.exch.owned.read_index < readyOperator.exch.owned.frames.length
    ∧ readyOperator.exch.owned.frames.length ≤ 255)
  ∧ (∃ f b', readyOperator.exch.owned.next_frame = some (f, b')
    ∧ receive_frame_op readyOperator idleEnv
        = (RxOutcome.ok f,
           { exch := readyOperator.exch.setOwned b', upcall := readyOperator.upcall }, [])
    ∧ receive_frame_fut_op readyOperator idleEnv
        = (FutStep.frameNow f (readyOperator.exch.setOwned b'), [],
           { exch := readyOperator.exch.setOwned b', upcall := none })
    ∧ b'.write_index = readyOperator.exch.owned.write_index
    ∧ b'.frames = readyOperator.exch.owned.frames
    ∧ b'.read_index
        = (readyOperator.exch.owned.read_index + 1) % readyOperator.exch.owned.frames.length
    ∧ (readyOperator.exch.setOwned b').lent = readyOperator.exch.lent
    ∧ (readyOperator.exch.setOwned b').owned_is_first = readyOperator.exch.owned_is_first) :=
  ⟨⟨rfl, by decide, by decide⟩,
   owned_frame_pop_no_kernel_interaction readyOperator idleEnv
     rfl (by decide) (by decide)⟩

end LibtockRx
